import Mathlib

/-!
# Food-delivery backend: route handlers of `src/backend/index.js`

The seven route handlers are embedded as pure functions from a store (the two
collections `User` and `Restaurant`) and the fields of a request to the store
afterwards and the HTTP response.

Modelling conventions.

* A collection is the list of its documents in insertion order; `findOne`
  and `findById` return the first document that matches.
* An `ObjectId` is identified with its hexadecimal string (`toString`).  The
  cast from a request string to an `ObjectId`, `bcrypt.hash` and
  `bcrypt.compare` belong to libraries outside the repository and are taken
  as parameters (`Env`); the general theorems hold for every `Env`.
  `Env.node` is the instance the handlers are evaluated with: the cast
  accepts 24 hexadecimal digits in either case and yields the lower-case
  identifier, and bcrypt reads the first 72 bytes of a password.
* The values drawn by the runtime in a handler (the salt of `bcrypt.hash`,
  the `_id` given to a document by `new Model(...)`, the clock read by
  `jwt.sign`) are explicit arguments.
* Everything thrown inside a handler's `try` block is caught by its `catch`
  and answered with status 500: a failed cast of an identifier, a failed
  schema validation on `save()`, a duplicate key, `bcrypt.compare` on a
  missing hash, a call of a method that does not exist.
* `required: true` on a `String` path rejects a missing value and the empty
  string.  `unique: true` is the unique index of the collection.
* `userSchema` declares no path `superuser`: the property `user.superuser`
  that three handlers read is `undefined` on every loaded document, whatever
  the stored document carries.
* The element of `restaurantSchema.menu` is written with a key `type`, which
  the schema layer reads as the declaration of the element's type: `menu` is
  an array of `String`.  An element of a request's menu is cast to a string
  when it is assigned, and a failed cast makes `save()` throw.
* Request fields are present and of the JSON type the handler expects; an
  element of a request's `menu` is a string or an item object.  The field
  `role` that two handlers destructure is never read and is left out.
-/

namespace Backend

/-- Identifier of a document, identified with its hexadecimal string. -/
structure ObjectId where
  hex : String
deriving DecidableEq, Repr

/-- The method `toString()` of an identifier. -/
def ObjectId.toString (i : ObjectId) : String := i.hex

/-- A hexadecimal digit, in either case. -/
def isHexDigit (c : Char) : Bool :=
  (48 ≤ c.toNat && c.toNat ≤ 57) || (97 ≤ c.toNat && c.toNat ≤ 102) ||
    (65 ≤ c.toNat && c.toNat ≤ 70)

/-- The lower-case form of a hexadecimal digit. -/
def lowerHex (c : Char) : Char :=
  if 65 ≤ c.toNat && c.toNat ≤ 70 then Char.ofNat (c.toNat + 32) else c

/-- The cast of a string to an identifier by the schema layer: 24 hexadecimal
digits in either case give the identifier with the digits in lower case,
anything else is a `CastError`. -/
def ObjectId.cast (s : String) : Option ObjectId :=
  if s.data.length = 24 && s.data.all isHexDigit then
    some { hex := String.mk (s.data.map lowerHex) }
  else none

/-- The UTF-8 bytes of a character. -/
def utf8Bytes (c : Char) : List Nat :=
  let n := c.toNat
  if n < 128 then [n]
  else if n < 2048 then [192 + n / 64, 128 + n % 64]
  else if n < 65536 then [224 + n / 4096, 128 + n / 64 % 64, 128 + n % 64]
  else [240 + n / 262144, 128 + n / 4096 % 64, 128 + n / 64 % 64, 128 + n % 64]

/-- What bcrypt reads of a password: the first 72 bytes of its UTF-8
encoding. -/
def bcryptKey (password : String) : List Nat :=
  (password.data.flatMap utf8Bytes).take 72

/-- The digest part of a hash in `Env.node`: the bytes read, as text. -/
def bcryptDigest (password : String) : String :=
  String.mk ((bcryptKey password).map Char.ofNat)

/-- Library functions the handlers call. -/
structure Env where
  /-- The cast of a request string to an identifier; `none` is a `CastError`. -/
  castObjectId : String → Option ObjectId
  /-- The call `bcrypt.hash(password, 10)` with the salt it draws. -/
  bcryptHash : String → String → String
  /-- The call `bcrypt.compare(password, hash)`. -/
  bcryptCompare : String → String → Bool

/-- The library functions as the handlers meet them: the cast of the schema
layer, and a bcrypt whose hash is a header of 7 characters, the salt of 22
characters and a digest of the first 72 bytes of the password. -/
def Env.node : Env :=
  { castObjectId := ObjectId.cast
    bcryptHash := fun password salt => "$2b$10$" ++ salt ++ bcryptDigest password
    bcryptCompare := fun password hash =>
      hash.data.take 7 == "$2b$10$".data && hash.data.drop 29 == (bcryptDigest password).data }

/-- A stored document of the collection of users (`userSchema`, lines 25-41).
The collection is schema-free, so a stored document may carry a field
`superuser` although the schema does not declare it: `storedSuperuser`. -/
structure User where
  _id : ObjectId
  username : String
  email : String
  password : String
  storedSuperuser : Bool
deriving DecidableEq, Repr

/-- The property `user.superuser` of a loaded document (lines 183, 212, 246):
`userSchema` declares no such path, so the property is `undefined`, which is
falsy, whatever the stored document carries. -/
def User.superuser (_user : User) : Bool := false

/-- An element of the array `menu` of a request body: a string, or an item
object with the fields of lines 60-63 and possibly an `_id`. -/
inductive MenuEntry where
  | text (value : String)
  | item (_id : Option String) (foodItem : String) (price : Int) (type : String)
      (itemImage : String)
deriving DecidableEq, Repr

/-- The cast of an element of `menu` to `String`, the element type that
`restaurantSchema` declares (lines 58-65): a string is kept, an object with
a non-empty string `_id` is replaced by that `_id`, any other object is a
`CastError`. -/
def MenuEntry.cast : MenuEntry → Option String
  | .text value => some value
  | .item (some _id) _ _ _ _ => if _id != "" then some _id else none
  | .item none _ _ _ _ => none

/-- The cast of a request's `menu`, element by element. -/
def castMenu : List MenuEntry → Option (List String)
  | [] => some []
  | e :: es =>
    match e.cast, castMenu es with
    | some v, some vs => some (v :: vs)
    | _, _ => none

/-- A stored document of the collection of restaurants (`restaurantSchema`,
lines 45-71).  The password is optional in the document because
`POST /api/restaurant` builds one without it. -/
structure Restaurant where
  _id : ObjectId
  name : String
  description : String
  location : String
  menu : List String
  password : Option String
deriving DecidableEq, Repr

/-- The two collections of the database. -/
structure Store where
  users : List User
  restaurants : List Restaurant
deriving DecidableEq, Repr

/-- The database before any request. -/
def Store.empty : Store := { users := [], restaurants := [] }

/-- Payload given to `jwt.sign`. -/
inductive Payload where
  | userId (id : ObjectId)
  | restaurantId (id : ObjectId)
deriving DecidableEq, Repr

/-- A signed token, kept as the data that went into it. -/
structure Jwt where
  payload : Payload
  secret : String
  iat : Nat
  exp : Nat
deriving DecidableEq, Repr

/-- The call `jwt.sign(payload, secret, { expiresIn: '1h' })` at time `now`
(seconds). -/
def jwt.sign (payload : Payload) (secret : String) (now : Nat) : Jwt :=
  { payload := payload, secret := secret, iat := now, exp := now + 3600 }

/-- JSON body of a response. -/
inductive Body where
  | message (message : String)
  | messageToken (message : String) (token : Jwt)
  | error (error : String)
deriving DecidableEq, Repr

/-- An HTTP response: `res.json(b)` is `{ status := 200, body := b }`. -/
structure Response where
  status : Nat
  body : Body
deriving DecidableEq, Repr

/-- The token of a response, if it carries one. -/
def Response.token (r : Response) : Option Jwt :=
  match r.body with
  | .messageToken _ t => some t
  | _ => none

/-- What a handler's `try` block can throw. -/
inductive Thrown where
  | castError
  | validationError
  | duplicateKey
  | typeError
deriving DecidableEq, Repr

/-- The query `User.findOne(q)`. -/
def User.findOne (users : List User) (q : User → Bool) : Option User :=
  users.find? q

/-- The query `User.findById(id)`. -/
def User.findById (env : Env) (users : List User) (id : String) :
    Except Thrown (Option User) :=
  match env.castObjectId id with
  | none => .error .castError
  | some i => .ok (users.find? (fun u => u._id == i))

/-- The validators of `userSchema`: three required strings. -/
def User.validate (u : User) : Bool :=
  u.username != "" && u.email != "" && u.password != ""

/-- The call `newUser.save()`: validation, then an insert that the unique
indexes on `_id`, `username` and `email` can refuse. -/
def User.save (s : Store) (u : User) : Except Thrown Store :=
  if !u.validate then .error .validationError
  else if s.users.any (fun v => v._id == u._id || v.username == u.username || v.email == u.email)
  then .error .duplicateKey
  else .ok { s with users := s.users ++ [u] }

/-- The query `Restaurant.findOne(q)`. -/
def Restaurant.findOne (restaurants : List Restaurant) (q : Restaurant → Bool) :
    Option Restaurant :=
  restaurants.find? q

/-- The query `Restaurant.findById(id)`. -/
def Restaurant.findById (env : Env) (restaurants : List Restaurant) (id : String) :
    Except Thrown (Option Restaurant) :=
  match env.castObjectId id with
  | none => .error .castError
  | some i => .ok (restaurants.find? (fun r => r._id == i))

/-- The validators of `restaurantSchema`: `name`, `description`, `location`
and `password` are required. -/
def Restaurant.validate (r : Restaurant) : Bool :=
  r.name != "" && r.description != "" && r.location != "" &&
    (match r.password with
     | none => false
     | some h => h != "")

/-- The call `newRestaurant.save()` on a document built by `new Restaurant`:
validation, then an insert that the unique index on `_id` can refuse. -/
def Restaurant.saveNew (s : Store) (r : Restaurant) : Except Thrown Store :=
  if !r.validate then .error .validationError
  else if s.restaurants.any (fun v => v._id == r._id) then .error .duplicateKey
  else .ok { s with restaurants := s.restaurants ++ [r] }

/-- Replace the first document whose `_id` is that of `r` by `r`. -/
def Restaurant.replace (r : Restaurant) : List Restaurant → List Restaurant
  | [] => []
  | x :: xs => if x._id == r._id then r :: xs else x :: Restaurant.replace r xs

/-- The call `restaurant.save()` on a document loaded from the collection:
validation, then an update of the stored document with that `_id`. -/
def Restaurant.saveLoaded (s : Store) (r : Restaurant) : Except Thrown Store :=
  if !r.validate then .error .validationError
  else .ok { s with restaurants := Restaurant.replace r s.restaurants }

/-- The call `restaurant.menu.id(itemId)` of line 260.  The array `menu` is
an array of strings, which has no method `id`: the call throws a `TypeError`
and returns nothing. -/
def menu.id (_menu : List String) (_itemId : String) : Except Thrown Empty :=
  .error .typeError

/-- The handler `POST /api/signup` (lines 76-94). -/
def signup (env : Env) (s : Store) (username email password : String)
    (salt : String) (newId : ObjectId) : Store × Response :=
  match User.findOne s.users (fun u => u.username == username || u.email == email) with
  | some _ => (s, { status := 400, body := .error "Username or email already in use" })
  | none =>
    let hashedPassword := env.bcryptHash password salt
    let newUser : User :=
      { _id := newId, username := username, email := email,
        password := hashedPassword, storedSuperuser := false }
    match User.save s newUser with
    | .ok s' => (s', { status := 200, body := .message "User registration successful" })
    | .error _ => (s, { status := 500, body := .error "Failed to register user" })

/-- The handler `POST /api/login` (lines 97-123). -/
def login (env : Env) (s : Store) (username password : String) (now : Nat) :
    Store × Response :=
  match User.findOne s.users (fun u => u.username == username) with
  | none => (s, { status := 401, body := .error "Invalid username or password" })
  | some user =>
    if env.bcryptCompare password user.password then
      let token := jwt.sign (.userId user._id) "your_secret_key" now
      (s, { status := 200, body := .messageToken "Login successful" token })
    else
      (s, { status := 401, body := .error "Invalid username or password" })

/-- The handler `POST /api/restaurant/signup` (lines 126-145).  The menu is
cast when the document is built; a failed cast makes `save()` throw. -/
def restaurantSignup (env : Env) (s : Store) (name password description location : String)
    (menu : List MenuEntry) (salt : String) (newId : ObjectId) : Store × Response :=
  let hashedPassword := env.bcryptHash password salt
  match castMenu menu with
  | none => (s, { status := 500, body := .error "Failed to register restaurant" })
  | some entries =>
    let newRestaurant : Restaurant :=
      { _id := newId, name := name, password := some hashedPassword,
        description := description, location := location, menu := entries }
    match Restaurant.saveNew s newRestaurant with
    | .ok s' => (s', { status := 200, body := .message "Restaurant registration successful" })
    | .error _ => (s, { status := 500, body := .error "Failed to register restaurant" })

/-- The handler `POST /api/restaurant/login` (lines 148-174). -/
def restaurantLogin (env : Env) (s : Store) (name password : String) (now : Nat) :
    Store × Response :=
  match Restaurant.findOne s.restaurants (fun r => r.name == name) with
  | none => (s, { status := 401, body := .error "Invalid restaurant name or password" })
  | some restaurant =>
    match restaurant.password with
    | none => (s, { status := 500, body := .error "Login failed" })
    | some hash =>
      if env.bcryptCompare password hash then
        let token := jwt.sign (.restaurantId restaurant._id) "your_restaurant_secret_key" now
        (s, { status := 200, body := .messageToken "Restaurant login successful" token })
      else
        (s, { status := 401, body := .error "Invalid restaurant name or password" })

/-- The handler `POST /api/restaurant` (lines 177-203). -/
def addRestaurant (env : Env) (s : Store) (userId name description location : String)
    (menu : List MenuEntry) (newId : ObjectId) : Store × Response :=
  match User.findById env s.users userId with
  | .error _ => (s, { status := 500, body := .error "Failed to add a restaurant" })
  | .ok none => (s, { status := 403, body := .error "Unauthorized access" })
  | .ok (some user) =>
    if !user.superuser then
      (s, { status := 403, body := .error "Unauthorized access" })
    else
      match castMenu menu with
      | none => (s, { status := 500, body := .error "Failed to add a restaurant" })
      | some entries =>
        let newRestaurant : Restaurant :=
          { _id := newId, name := name, description := description,
            location := location, menu := entries, password := none }
        match Restaurant.saveNew s newRestaurant with
        | .ok s' => (s', { status := 200, body := .message "Restaurant added successfully" })
        | .error _ => (s, { status := 500, body := .error "Failed to add a restaurant" })

/-- The condition of lines 212 and 246:
`!user || (!user.superuser && user._id.toString() !== userId)`. -/
def unauthorized (user : Option User) (userId : String) : Bool :=
  match user with
  | none => true
  | some u => !u.superuser && u._id.toString != userId

/-- The handler `PUT /api/update-menu/:restaurantId` (lines 206-237).  The
assignment `restaurant.menu = menu` casts the menu; a failed cast makes
`save()` throw. -/
def updateMenu (env : Env) (s : Store) (restaurantId userId : String)
    (menu : List MenuEntry) : Store × Response :=
  match User.findById env s.users userId with
  | .error _ => (s, { status := 500, body := .error "Failed to update the menu" })
  | .ok user =>
    if unauthorized user userId then
      (s, { status := 403, body := .error "Unauthorized access" })
    else
      match Restaurant.findById env s.restaurants restaurantId with
      | .error _ => (s, { status := 500, body := .error "Failed to update the menu" })
      | .ok none => (s, { status := 404, body := .error "Restaurant not found" })
      | .ok (some restaurant) =>
        match castMenu menu with
        | none => (s, { status := 500, body := .error "Failed to update the menu" })
        | some entries =>
          match Restaurant.saveLoaded s { restaurant with menu := entries } with
          | .ok s' => (s', { status := 200, body := .message "Menu updated successfully" })
          | .error _ => (s, { status := 500, body := .error "Failed to update the menu" })

/-- The handler `DELETE /api/delete-menu-item/:restaurantId/:itemId`
(lines 240-276).  The call of line 260 throws, so lines 262-272 are never
run. -/
def deleteMenuItem (env : Env) (s : Store) (restaurantId itemId userId : String) :
    Store × Response :=
  match User.findById env s.users userId with
  | .error _ => (s, { status := 500, body := .error "Failed to delete the menu item" })
  | .ok user =>
    if unauthorized user userId then
      (s, { status := 403, body := .error "Unauthorized access" })
    else
      match Restaurant.findById env s.restaurants restaurantId with
      | .error _ => (s, { status := 500, body := .error "Failed to delete the menu item" })
      | .ok none => (s, { status := 404, body := .error "Restaurant not found" })
      | .ok (some restaurant) =>
        match menu.id restaurant.menu itemId with
        | .error _ => (s, { status := 500, body := .error "Failed to delete the menu item" })
        | .ok menuItem => nomatch menuItem

/-- A request to one of the seven routes, with the values the runtime draws
while serving it. -/
inductive Op where
  | signup (username email password salt : String) (newId : ObjectId)
  | login (username password : String) (now : Nat)
  | restaurantSignup (name password description location : String)
      (menu : List MenuEntry) (salt : String) (newId : ObjectId)
  | restaurantLogin (name password : String) (now : Nat)
  | addRestaurant (userId name description location : String)
      (menu : List MenuEntry) (newId : ObjectId)
  | updateMenu (restaurantId userId : String) (menu : List MenuEntry)
  | deleteMenuItem (restaurantId itemId userId : String)

/-- Serve one request. -/
def step (env : Env) (s : Store) : Op → Store × Response
  | .signup username email password salt newId =>
      signup env s username email password salt newId
  | .login username password now => login env s username password now
  | .restaurantSignup name password description location menu salt newId =>
      restaurantSignup env s name password description location menu salt newId
  | .restaurantLogin name password now => restaurantLogin env s name password now
  | .addRestaurant userId name description location menu newId =>
      addRestaurant env s userId name description location menu newId
  | .updateMenu restaurantId userId menu => updateMenu env s restaurantId userId menu
  | .deleteMenuItem restaurantId itemId userId =>
      deleteMenuItem env s restaurantId itemId userId

/-- Serve a sequence of requests, one after the other. -/
def run (env : Env) (s : Store) (ops : List Op) : Store :=
  ops.foldl (fun t op => (step env t op).1) s

/-- The document that `signup` builds. -/
def signup.newUser (env : Env) (username email password salt : String) (newId : ObjectId) :
    User :=
  { _id := newId, username := username, email := email,
    password := env.bcryptHash password salt, storedSuperuser := false }

/-- The authorization gate of lines 210-214 and 244-248 lets the request
through: the user lookup does not throw and the condition is false. -/
def authorized (env : Env) (s : Store) (userId : String) : Bool :=
  match User.findById env s.users userId with
  | .ok user => !unauthorized user userId
  | .error _ => false

/-! ## Sample data -/

/-- A password of 73 characters. -/
def Sample.longPassword (last : String) : String :=
  String.mk (List.replicate 72 (Char.ofNat 97)) ++ last

/-- A menu item of the sample restaurant. -/
def Sample.pizza : MenuEntry :=
  .item (some "65a000000000000000000011") "pizza" 9 "main" "pizza.png"

/-- Another menu item of the sample restaurant. -/
def Sample.pasta : MenuEntry :=
  .item (some "65a000000000000000000012") "pasta" 8 "main" "pasta.png"

/-- A menu item that is not on the sample restaurant's menu. -/
def Sample.salad : MenuEntry :=
  .item (some "65a000000000000000000013") "salad" 5 "side" "salad.png"

/-- The store after alice and the restaurant Roma have signed up. -/
def Sample.store : Store :=
  run Env.node Store.empty
    [.signup "alice" "a@x.com" "pw1" "saltsaltsaltsaltsaltsa" ⟨"65a000000000000000000001"⟩,
     .restaurantSignup "Roma" "rpw" "Italian food" "Rome" [Sample.pizza, Sample.pasta]
        "saltsaltsaltsaltsaltsa" ⟨"65a000000000000000000021"⟩]

/-- The restaurant of `Sample.store`, as it is stored. -/
def Sample.roma : Restaurant :=
  { _id := ⟨"65a000000000000000000021"⟩, name := "Roma", description := "Italian food",
    location := "Rome", menu := ["65a000000000000000000011", "65a000000000000000000012"],
    password := some (Env.node.bcryptHash "rpw" "saltsaltsaltsaltsaltsa") }

/-- A store whose only user carries a field `superuser` set to true. -/
def Sample.adminStore : Store :=
  { users := [{ _id := ⟨"65a000000000000000000002"⟩, username := "root",
                email := "root@x.com",
                password := Env.node.bcryptHash "rootpw" "saltsaltsaltsaltsaltsa",
                storedSuperuser := true }],
    restaurants := [] }

/-- The store after two restaurants have signed up under the same name with
different passwords. -/
def Sample.twins : Store :=
  run Env.node Store.empty
    [.restaurantSignup "Roma" "first" "Italian food" "Rome" [] "saltsaltsaltsaltsaltsa"
        ⟨"65a000000000000000000031"⟩,
     .restaurantSignup "Roma" "second" "More Italian food" "Milan" [] "saltsaltsaltsaltsaltsa"
        ⟨"65a000000000000000000032"⟩]

/-! ## Signup and login -/

theorem signup_of_existing (env : Env) (s : Store) (username email password salt : String)
    (newId : ObjectId) (h : ∃ u ∈ s.users, u.username = username ∨ u.email = email) :
    signup env s username email password salt newId =
      (s, { status := 400, body := .error "Username or email already in use" }) := by
  obtain ⟨u, hu, hq⟩ := h
  unfold signup User.findOne
  cases hf : s.users.find? (fun u => u.username == username || u.email == email) with
  | some v => rfl
  | none =>
    have hn := List.find?_eq_none.mp hf u hu
    simp at hn
    rcases hq with hq | hq
    · exact absurd hq hn.1
    · exact absurd hq hn.2

theorem User.save_ok (s s' : Store) (u : User) (h : User.save s u = .ok s') :
    s' = { s with users := s.users ++ [u] } := by
  unfold User.save at h
  split_ifs at h
  exact (Except.ok.inj h).symm

theorem signup_ok (env : Env) (s : Store) (username email password salt : String)
    (newId : ObjectId) (h : (signup env s username email password salt newId).2.status = 200) :
    (∀ u ∈ s.users, u.username ≠ username ∧ u.email ≠ email) ∧
    (signup env s username email password salt newId).1 =
      { s with users := s.users ++ [signup.newUser env username email password salt newId] } := by
  unfold signup User.findOne at h ⊢
  cases hf : s.users.find? (fun u => u.username == username || u.email == email) with
  | some v => rw [hf] at h; simp at h
  | none =>
    rw [hf] at h
    have hn := List.find?_eq_none.mp hf
    refine ⟨fun u hu => by simpa using hn u hu, ?_⟩
    simp only at h ⊢
    cases hs : User.save s
        { _id := newId, username := username, email := email,
          password := env.bcryptHash password salt, storedSuperuser := false } with
    | error e => rw [hs] at h; simp at h
    | ok s' => exact User.save_ok _ _ _ hs

theorem login_after_signup (env : Env) (s : Store) (username email password salt : String)
    (newId : ObjectId) (h : (signup env s username email password salt newId).2.status = 200) :
    User.findOne (signup env s username email password salt newId).1.users
        (fun u => u.username == username) =
      some (signup.newUser env username email password salt newId) := by
  obtain ⟨hfresh, hs⟩ := signup_ok env s username email password salt newId h
  rw [hs]
  unfold User.findOne
  have hnone : s.users.find? (fun u => u.username == username) = none := by
    apply List.find?_eq_none.mpr
    intro u hu
    simpa using (hfresh u hu).1
  simp [List.find?_append, hnone, signup.newUser]

/-- C1: if a stored user has the username or the email of a signup request,
signup answers 400 and the store is exactly as before; after a signup that
succeeded, every further signup with the same username or the same email
answers 400 and leaves the store as the first signup left it. -/
theorem signup_conflict_no_duplicate (env : Env) (s : Store)
    (username email password salt : String) (newId : ObjectId) :
    ((∃ u ∈ s.users, u.username = username ∨ u.email = email) →
      (signup env s username email password salt newId).2.status = 400 ∧
      (signup env s username email password salt newId).1 = s) ∧
    ((signup env s username email password salt newId).2.status = 200 →
      ∀ (username2 email2 password2 salt2 : String) (newId2 : ObjectId),
        username2 = username ∨ email2 = email →
        (signup env (signup env s username email password salt newId).1
            username2 email2 password2 salt2 newId2).2.status = 400 ∧
        (signup env (signup env s username email password salt newId).1
            username2 email2 password2 salt2 newId2).1 =
          (signup env s username email password salt newId).1) := by
  constructor
  · intro h
    rw [signup_of_existing env s username email password salt newId h]
    exact ⟨rfl, rfl⟩
  · intro hok username2 email2 password2 salt2 newId2 hsame
    have hs := (signup_ok env s username email password salt newId hok).2
    have hex : ∃ u ∈ (signup env s username email password salt newId).1.users,
        u.username = username2 ∨ u.email = email2 := by
      refine ⟨signup.newUser env username email password salt newId, ?_, ?_⟩
      · rw [hs]
        simp
      · rcases hsame with h1 | h1
        · exact Or.inl h1.symm
        · exact Or.inr h1.symm
    rw [signup_of_existing env _ username2 email2 password2 salt2 newId2 hex]
    exact ⟨rfl, rfl⟩

/-- Witness of C1: alice signs up in the empty store, then a second signup
with her username and one with her email are refused. -/
theorem signup_conflict_no_duplicate_witness :
    (signup Env.node Store.empty "alice" "a@x.com" "pw1" "saltsaltsaltsaltsaltsa"
        ⟨"65a000000000000000000001"⟩).2.status = 200 ∧
    (signup Env.node
        (signup Env.node Store.empty "alice" "a@x.com" "pw1" "saltsaltsaltsaltsaltsa"
          ⟨"65a000000000000000000001"⟩).1
        "alice" "b@x.com" "pw2" "saltsaltsaltsaltsaltsa"
        ⟨"65a000000000000000000003"⟩).2.status = 400 ∧
    (signup Env.node
        (signup Env.node Store.empty "alice" "a@x.com" "pw1" "saltsaltsaltsaltsaltsa"
          ⟨"65a000000000000000000001"⟩).1
        "bob" "a@x.com" "pw2" "saltsaltsaltsaltsaltsa" ⟨"65a000000000000000000003"⟩).1 =
      (signup Env.node Store.empty "alice" "a@x.com" "pw1" "saltsaltsaltsaltsaltsa"
        ⟨"65a000000000000000000001"⟩).1 :=
  ⟨by decide,
   ((signup_conflict_no_duplicate Env.node
      (signup Env.node Store.empty "alice" "a@x.com" "pw1" "saltsaltsaltsaltsaltsa"
        ⟨"65a000000000000000000001"⟩).1
      "alice" "b@x.com" "pw2" "saltsaltsaltsaltsaltsa" ⟨"65a000000000000000000003"⟩).1
      ⟨signup.newUser Env.node "alice" "a@x.com" "pw1" "saltsaltsaltsaltsaltsa"
        ⟨"65a000000000000000000001"⟩, by decide, Or.inl rfl⟩).1,
   ((signup_conflict_no_duplicate Env.node Store.empty "alice" "a@x.com" "pw1"
      "saltsaltsaltsaltsaltsa" ⟨"65a000000000000000000001"⟩).2
      (by decide) "bob" "a@x.com" "pw2" "saltsaltsaltsaltsaltsa"
      ⟨"65a000000000000000000003"⟩ (Or.inr rfl)).2⟩

/-- C2: a login whose password matches the stored hash of no user with the
given username answers 401 with no token and leaves the store as it was,
whether or not a user with that username is stored. -/
theorem login_wrong_password (env : Env) (s : Store) (username password : String) (now : Nat)
    (hwrong : ∀ u ∈ s.users, u.username = username →
      env.bcryptCompare password u.password = false) :
    (login env s username password now).2.status = 401 ∧
    (login env s username password now).2.token = none ∧
    (login env s username password now).1 = s := by
  unfold login User.findOne
  cases hf : s.users.find? (fun u => u.username == username) with
  | none => exact ⟨rfl, rfl, rfl⟩
  | some user =>
    have hmem := List.mem_of_find?_eq_some hf
    have hname : user.username = username := by
      simpa using List.find?_some hf
    simp only [hwrong user hmem hname]
    exact ⟨rfl, rfl, rfl⟩

/-- Witness of C2: with alice stored, a login as alice with another password
and a login as an unknown user are both refused. -/
theorem login_wrong_password_witness :
    (login Env.node Sample.store "alice" "wrong" 0).2.status = 401 ∧
    (login Env.node Sample.store "carol" "pw1" 0).2.status = 401 :=
  ⟨(login_wrong_password Env.node Sample.store "alice" "wrong" 0 (by decide)).1,
   (login_wrong_password Env.node Sample.store "carol" "pw1" 0 (by decide)).1⟩

/-- C3, as the claim states it, fails: alice signs up with a password of 73
characters; a login with a different password that shares its first 72
characters is answered 200, not 401. -/
theorem signup_login_roundtrip_counterexample :
    (signup Env.node Store.empty "alice" "a@x.com" (Sample.longPassword "x")
        "saltsaltsaltsaltsaltsa" ⟨"65a000000000000000000001"⟩).2.status = 200 ∧
    Sample.longPassword "y" ≠ Sample.longPassword "x" ∧
    (login Env.node
        (signup Env.node Store.empty "alice" "a@x.com" (Sample.longPassword "x")
          "saltsaltsaltsaltsaltsa" ⟨"65a000000000000000000001"⟩).1
        "alice" (Sample.longPassword "y") 1000).2.status = 200 := by
  decide

/-- C3, amended: after a signup that succeeded, the store has gained one user
with the identifier drawn for it; a login with the same username and
password answers 200 with a token whose payload is that identifier and whose
expiry is 3600 seconds after its issue; a login with another password is
answered 401 without a token when `bcrypt.compare` rejects it against the
stored hash and is answered 200 with the same token when `bcrypt.compare`
accepts it; a signup with the same email and another username answers 400.
That `bcrypt.compare` accepts the password whose hash it is given is a
hypothesis. -/
theorem signup_login_roundtrip (env : Env) (s : Store)
    (username email password salt : String) (newId : ObjectId)
    (hok : (signup env s username email password salt newId).2.status = 200)
    (hacc : env.bcryptCompare password (env.bcryptHash password salt) = true) :
    (∃ created : User, created._id = newId ∧ created.username = username ∧
      created.email = email ∧
      (signup env s username email password salt newId).1.users = s.users ++ [created]) ∧
    (∀ now : Nat,
      (login env (signup env s username email password salt newId).1 username password now).2 =
        { status := 200,
          body := .messageToken "Login successful"
            { payload := .userId newId, secret := "your_secret_key",
              iat := now, exp := now + 3600 } }) ∧
    (∀ (other : String) (now : Nat),
      (env.bcryptCompare other (env.bcryptHash password salt) = false →
        (login env (signup env s username email password salt newId).1
          username other now).2.status = 401 ∧
        (login env (signup env s username email password salt newId).1
          username other now).2.token = none) ∧
      (env.bcryptCompare other (env.bcryptHash password salt) = true →
        (login env (signup env s username email password salt newId).1 username other now).2 =
          { status := 200,
            body := .messageToken "Login successful"
              { payload := .userId newId, secret := "your_secret_key",
                iat := now, exp := now + 3600 } })) ∧
    (∀ (username2 password2 salt2 : String) (newId2 : ObjectId), username2 ≠ username →
      (signup env (signup env s username email password salt newId).1
        username2 email password2 salt2 newId2).2.status = 400) := by
  have hs := (signup_ok env s username email password salt newId hok).2
  have hfind := login_after_signup env s username email password salt newId hok
  have hyes : ∀ (other : String) (now : Nat),
      env.bcryptCompare other (env.bcryptHash password salt) = true →
      (login env (signup env s username email password salt newId).1 username other now).2 =
        { status := 200,
          body := .messageToken "Login successful"
            { payload := .userId newId, secret := "your_secret_key",
              iat := now, exp := now + 3600 } } := by
    intro other now hc
    unfold login
    rw [hfind]
    simp [signup.newUser, hc, jwt.sign]
  refine ⟨⟨signup.newUser env username email password salt newId, rfl, rfl, rfl, ?_⟩,
    fun now => hyes password now hacc, ?_, ?_⟩
  · rw [hs]
  · intro other now
    refine ⟨?_, hyes other now⟩
    intro hc
    unfold login
    rw [hfind]
    simp [signup.newUser, hc, Response.token]
  · intro username2 password2 salt2 newId2 _
    have hex : ∃ u ∈ (signup env s username email password salt newId).1.users,
        u.username = username2 ∨ u.email = email := by
      refine ⟨signup.newUser env username email password salt newId, ?_, Or.inr rfl⟩
      rw [hs]
      simp
    rw [signup_of_existing env _ username2 email password2 salt2 newId2 hex]

/-- Witness of C3: the scenario alice / a@x.com / pw1. -/
theorem signup_login_roundtrip_witness :
    (signup Env.node Store.empty "alice" "a@x.com" "pw1" "saltsaltsaltsaltsaltsa"
        ⟨"65a000000000000000000001"⟩).2.status = 200 ∧
    (login Env.node
        (signup Env.node Store.empty "alice" "a@x.com" "pw1" "saltsaltsaltsaltsaltsa"
          ⟨"65a000000000000000000001"⟩).1
        "alice" "pw1" 1000).2.token =
      some { payload := .userId ⟨"65a000000000000000000001"⟩, secret := "your_secret_key",
             iat := 1000, exp := 4600 } ∧
    (login Env.node
        (signup Env.node Store.empty "alice" "a@x.com" "pw1" "saltsaltsaltsaltsaltsa"
          ⟨"65a000000000000000000001"⟩).1
        "alice" "wrong" 1000).2.status = 401 ∧
    (signup Env.node
        (signup Env.node Store.empty "alice" "a@x.com" "pw1" "saltsaltsaltsaltsaltsa"
          ⟨"65a000000000000000000001"⟩).1
        "bob" "a@x.com" "pw2" "saltsaltsaltsaltsaltsa"
        ⟨"65a000000000000000000003"⟩).2.status = 400 :=
  have h := signup_login_roundtrip Env.node Store.empty
    "alice" "a@x.com" "pw1" "saltsaltsaltsaltsaltsa" ⟨"65a000000000000000000001"⟩
    (by decide) (by decide)
  ⟨by decide, by rw [h.2.1 1000]; rfl, ((h.2.2.1 "wrong" 1000).1 (by decide)).1,
   h.2.2.2 "bob" "pw2" "saltsaltsaltsaltsaltsa" ⟨"65a000000000000000000003"⟩ (by decide)⟩

/-! ## The authorization gate -/

theorem authorized_iff (env : Env) (s : Store) (userId : String) :
    authorized env s userId = true ↔
      ∃ u ∈ s.users, env.castObjectId userId = some u._id ∧ u._id.toString = userId := by
  unfold authorized User.findById
  cases hc : env.castObjectId userId with
  | none => simp
  | some i =>
    simp only
    cases hf : s.users.find? (fun v => v._id == i) with
    | none =>
      have hn := List.find?_eq_none.mp hf
      simp only [unauthorized, Bool.not_true, Bool.false_eq_true, false_iff]
      rintro ⟨u, hu, hi, -⟩
      have := hn u hu
      simp [Option.some.inj hi] at this
    | some v =>
      have hv : v._id = i := by simpa using List.find?_some hf
      have hmem := List.mem_of_find?_eq_some hf
      simp only [unauthorized, User.superuser, Bool.not_false, Bool.true_and, Bool.not_eq_true',
        bne_eq_false_iff_eq]
      constructor
      · intro h
        exact ⟨v, hmem, by rw [hv], h⟩
      · rintro ⟨u, -, hi, hs⟩
        rw [hv, Option.some.inj hi]
        exact hs

theorem not_authorized_iff (env : Env) (s : Store) (userId : String) :
    ((∃ i, env.castObjectId userId = some i) ∧ authorized env s userId = false) ↔
      ∃ i, env.castObjectId userId = some i ∧
        ((∀ u ∈ s.users, u._id ≠ i) ∨ i.toString ≠ userId) := by
  have ha := authorized_iff env s userId
  constructor
  · rintro ⟨⟨i, hi⟩, hf⟩
    refine ⟨i, hi, ?_⟩
    by_cases hs : i.toString = userId
    · left
      intro u hu hui
      have : authorized env s userId = true :=
        ha.mpr ⟨u, hu, by rw [hi, hui], by rw [hui]; exact hs⟩
      rw [hf] at this
      exact Bool.noConfusion this
    · exact Or.inr hs
  · rintro ⟨i, hi, h⟩
    refine ⟨⟨i, hi⟩, ?_⟩
    cases hb : authorized env s userId with
    | false => rfl
    | true =>
      obtain ⟨u, hu, hui, hs⟩ := ha.mp hb
      have hiu : i = u._id := Option.some.inj (hi.symm.trans hui)
      rcases h with h | h
      · exact absurd hiu.symm (h u hu)
      · exact absurd (by rw [hiu]; exact hs) h

theorem gate_cases (env : Env) (s : Store) (userId : String) :
    (env.castObjectId userId = none ∧ User.findById env s.users userId = .error .castError) ∨
    (∃ user, User.findById env s.users userId = .ok user ∧ unauthorized user userId = true ∧
      (∃ i, env.castObjectId userId = some i) ∧ authorized env s userId = false) ∨
    (∃ user, User.findById env s.users userId = .ok user ∧ unauthorized user userId = false ∧
      (∃ i, env.castObjectId userId = some i) ∧ authorized env s userId = true) := by
  unfold authorized User.findById
  cases hc : env.castObjectId userId with
  | none => exact Or.inl ⟨rfl, rfl⟩
  | some i =>
    right
    cases hu : unauthorized (s.users.find? (fun u => u._id == i)) userId with
    | true => exact Or.inl ⟨_, rfl, hu, ⟨i, rfl⟩, by simp [hu]⟩
    | false => exact Or.inr ⟨_, rfl, hu, ⟨i, rfl⟩, by simp [hu]⟩

theorem updateMenu_status_403 (env : Env) (s : Store) (restaurantId userId : String)
    (menu : List MenuEntry) :
    (updateMenu env s restaurantId userId menu).2.status = 403 ↔
      (∃ i, env.castObjectId userId = some i) ∧ authorized env s userId = false := by
  rcases gate_cases env s userId with ⟨hc, hu⟩ | ⟨user, hu, ha, hi, hz⟩ | ⟨user, hu, ha, hi, hz⟩
  · simp [updateMenu, hu, hc]
  · simp [updateMenu, hu, ha, hi, hz]
  · simp only [hz, Bool.true_eq_false, and_false, iff_false]
    cases hr : Restaurant.findById env s.restaurants restaurantId with
    | error e => simp [updateMenu, hu, ha, hr]
    | ok o =>
      cases o with
      | none => simp [updateMenu, hu, ha, hr]
      | some r =>
        cases hm : castMenu menu with
        | none => simp [updateMenu, hu, ha, hr, hm]
        | some entries =>
          cases hs : Restaurant.saveLoaded s { r with menu := entries } with
          | error e => simp [updateMenu, hu, ha, hr, hm, hs]
          | ok s' => simp [updateMenu, hu, ha, hr, hm, hs]

theorem deleteMenuItem_status_403 (env : Env) (s : Store)
    (restaurantId itemId userId : String) :
    (deleteMenuItem env s restaurantId itemId userId).2.status = 403 ↔
      (∃ i, env.castObjectId userId = some i) ∧ authorized env s userId = false := by
  rcases gate_cases env s userId with ⟨hc, hu⟩ | ⟨user, hu, ha, hi, hz⟩ | ⟨user, hu, ha, hi, hz⟩
  · simp [deleteMenuItem, hu, hc]
  · simp [deleteMenuItem, hu, ha, hi, hz]
  · simp only [hz, Bool.true_eq_false, and_false, iff_false]
    cases hr : Restaurant.findById env s.restaurants restaurantId with
    | error e => simp [deleteMenuItem, hu, ha, hr]
    | ok o =>
      cases o with
      | none => simp [deleteMenuItem, hu, ha, hr]
      | some r => simp [deleteMenuItem, hu, ha, hr, menu.id]

/-- C9, as the claim states it, fails: the userId is alice's identifier
written with an upper-case digit; the lookup resolves it to alice, a stored
user, and both handlers answer 403. -/
theorem gate_stored_user_counterexample :
    (∃ u ∈ Sample.store.users,
      User.findById Env.node Sample.store.users "65A000000000000000000001" = .ok (some u)) ∧
    (updateMenu Env.node Sample.store "65a000000000000000000021"
        "65A000000000000000000001" [Sample.salad]).2.status = 403 ∧
    (deleteMenuItem Env.node Sample.store "65a000000000000000000021"
        "65a000000000000000000011" "65A000000000000000000001").2.status = 403 := by
  refine ⟨⟨signup.newUser Env.node "alice" "a@x.com" "pw1" "saltsaltsaltsaltsaltsa"
    ⟨"65a000000000000000000001"⟩, ?_, ?_⟩, ?_, ?_⟩
  · decide
  · rfl
  · decide
  · decide

/-- C9, amended: when the request's userId resolves to a stored user and is
the string form of that user's identifier, neither updateMenu nor
deleteMenuItem answers 403, whatever the stored user carries as superuser
and whichever restaurant is targeted; and either handler answers 403 exactly
when userId is a well-formed identifier that is the identifier of no stored
user or is not the string form of the identifier it is cast to. -/
theorem gate_stored_user (env : Env) (s : Store) (userId restaurantId itemId : String)
    (menu : List MenuEntry) :
    ((∃ u ∈ s.users, env.castObjectId userId = some u._id ∧ u._id.toString = userId) →
      (updateMenu env s restaurantId userId menu).2.status ≠ 403 ∧
      (deleteMenuItem env s restaurantId itemId userId).2.status ≠ 403) ∧
    ((updateMenu env s restaurantId userId menu).2.status = 403 ↔
      ∃ i, env.castObjectId userId = some i ∧
        ((∀ u ∈ s.users, u._id ≠ i) ∨ i.toString ≠ userId)) ∧
    ((deleteMenuItem env s restaurantId itemId userId).2.status = 403 ↔
      ∃ i, env.castObjectId userId = some i ∧
        ((∀ u ∈ s.users, u._id ≠ i) ∨ i.toString ≠ userId)) := by
  refine ⟨?_, ?_, ?_⟩
  · intro h
    have ha := (authorized_iff env s userId).mpr h
    constructor
    · intro h403
      have := ((updateMenu_status_403 env s restaurantId userId menu).mp h403).2
      rw [ha] at this
      exact Bool.noConfusion this
    · intro h403
      have := ((deleteMenuItem_status_403 env s restaurantId itemId userId).mp h403).2
      rw [ha] at this
      exact Bool.noConfusion this
  · exact (updateMenu_status_403 env s restaurantId userId menu).trans
      (not_authorized_iff env s userId)
  · exact (deleteMenuItem_status_403 env s restaurantId itemId userId).trans
      (not_authorized_iff env s userId)

/-- Witness of C9: alice, addressed by the string form of her identifier, is
let through by both handlers. -/
theorem gate_stored_user_witness :
    (updateMenu Env.node Sample.store "65a000000000000000000021"
        "65a000000000000000000001" [Sample.salad]).2.status ≠ 403 ∧
    (deleteMenuItem Env.node Sample.store "65a000000000000000000021"
        "65a000000000000000000011" "65a000000000000000000001").2.status ≠ 403 :=
  (gate_stored_user Env.node Sample.store "65a000000000000000000001"
      "65a000000000000000000021" "65a000000000000000000011" [Sample.salad]).1
    ⟨signup.newUser Env.node "alice" "a@x.com" "pw1" "saltsaltsaltsaltsaltsa"
      ⟨"65a000000000000000000001"⟩, by decide, by decide, rfl⟩

/-! ## Menu management -/

theorem Restaurant.findById_some (env : Env) (l : List Restaurant) (id : String)
    (r : Restaurant) (h : Restaurant.findById env l id = .ok (some r)) :
    env.castObjectId id = some r._id ∧ l.find? (fun x => x._id == r._id) = some r := by
  unfold Restaurant.findById at h
  cases hc : env.castObjectId id with
  | none => rw [hc] at h; simp at h
  | some i =>
    rw [hc] at h
    have hf : l.find? (fun x => x._id == i) = some r := by
      simpa using h
    have hi : r._id = i := by simpa using List.find?_some hf
    rw [hi]
    exact ⟨rfl, hf⟩

theorem Restaurant.findById_none (env : Env) (l : List Restaurant) (id : String)
    (hnone : ∀ r ∈ l, env.castObjectId id ≠ some r._id) (r : Restaurant) :
    Restaurant.findById env l id ≠ .ok (some r) := by
  intro h
  obtain ⟨hc, hf⟩ := Restaurant.findById_some env l id r h
  exact hnone r (List.mem_of_find?_eq_some hf) hc

theorem Restaurant.findById_unknown (env : Env) (l : List Restaurant) (id : String)
    (hnone : ∀ r ∈ l, env.castObjectId id ≠ some r._id) :
    (env.castObjectId id = none ∧ Restaurant.findById env l id = .error .castError) ∨
    ((∃ i, env.castObjectId id = some i) ∧ Restaurant.findById env l id = .ok none) := by
  cases hc : env.castObjectId id with
  | none => exact Or.inl ⟨rfl, by simp [Restaurant.findById, hc]⟩
  | some i =>
    right
    refine ⟨⟨i, rfl⟩, ?_⟩
    cases hr : Restaurant.findById env l id with
    | error e => simp [Restaurant.findById, hc] at hr
    | ok o =>
      cases o with
      | none => rfl
      | some r => exact absurd hr (Restaurant.findById_none env l id hnone r)

/-- C4, as the claim states it, fails: the restaurant identifier matches no
stored restaurant, the user identifier matches no stored user, and the
answer is 403. -/
theorem updateMenu_unknown_restaurant_counterexample :
    (∀ r ∈ Sample.store.restaurants,
      Env.node.castObjectId "65a000000000000000000029" ≠ some r._id) ∧
    (updateMenu Env.node Sample.store "65a000000000000000000029"
        "65a000000000000000000009" [Sample.salad]).2.status = 403 := by
  decide

/-- C4, amended: when the restaurant identifier matches no stored restaurant,
updateMenu leaves the store as it was; it answers 404 exactly when the
userId resolves to a stored user and is the string form of that user's
identifier and the restaurant identifier is well formed; it answers 403
exactly when the userId is a well-formed identifier that is the identifier
of no stored user or is not the string form of the identifier it is cast
to; it answers 500 exactly when the userId is malformed, or the gate is
passed and the restaurant identifier is malformed. -/
theorem updateMenu_unknown_restaurant (env : Env) (s : Store) (restaurantId userId : String)
    (menu : List MenuEntry)
    (hnone : ∀ r ∈ s.restaurants, env.castObjectId restaurantId ≠ some r._id) :
    (updateMenu env s restaurantId userId menu).1 = s ∧
    ((updateMenu env s restaurantId userId menu).2.status = 404 ↔
      (∃ u ∈ s.users, env.castObjectId userId = some u._id ∧ u._id.toString = userId) ∧
      ∃ i, env.castObjectId restaurantId = some i) ∧
    ((updateMenu env s restaurantId userId menu).2.status = 403 ↔
      ∃ i, env.castObjectId userId = some i ∧
        ((∀ u ∈ s.users, u._id ≠ i) ∨ i.toString ≠ userId)) ∧
    ((updateMenu env s restaurantId userId menu).2.status = 500 ↔
      env.castObjectId userId = none ∨
      ((∃ u ∈ s.users, env.castObjectId userId = some u._id ∧ u._id.toString = userId) ∧
        env.castObjectId restaurantId = none)) := by
  rw [← authorized_iff env s userId]
  refine ⟨?_, ?_, (updateMenu_status_403 env s restaurantId userId menu).trans
    (not_authorized_iff env s userId), ?_⟩
  · rcases gate_cases env s userId with ⟨hc, hu⟩ | ⟨user, hu, ha, hi, hz⟩ | ⟨user, hu, ha, hi, hz⟩
    · simp [updateMenu, hu]
    · simp [updateMenu, hu, ha]
    · rcases Restaurant.findById_unknown env s.restaurants restaurantId hnone with
        ⟨_, hr⟩ | ⟨_, hr⟩ <;> simp [updateMenu, hu, ha, hr]
  · rcases gate_cases env s userId with ⟨hc, hu⟩ | ⟨user, hu, ha, hi, hz⟩ | ⟨user, hu, ha, hi, hz⟩
    · simp [updateMenu, hu, authorized]
    · simp [updateMenu, hu, ha, hz]
    · rcases Restaurant.findById_unknown env s.restaurants restaurantId hnone with
        ⟨hc, hr⟩ | ⟨⟨i, hc⟩, hr⟩ <;> simp [updateMenu, hu, ha, hr, hz, hc]
  · rcases gate_cases env s userId with ⟨hc, hu⟩ | ⟨user, hu, ha, ⟨k, hk⟩, hz⟩ |
      ⟨user, hu, ha, ⟨k, hk⟩, hz⟩
    · simp [updateMenu, hu, hc]
    · simp [updateMenu, hu, ha, hz, hk]
    · rcases Restaurant.findById_unknown env s.restaurants restaurantId hnone with
        ⟨hc, hr⟩ | ⟨⟨i, hc⟩, hr⟩ <;> simp [updateMenu, hu, ha, hr, hz, hc, hk]

/-- Witness of C4: alice asks for the menu of a restaurant that is not
stored. -/
theorem updateMenu_unknown_restaurant_witness :
    (updateMenu Env.node Sample.store "65a000000000000000000029"
        "65a000000000000000000001" [Sample.salad]).1 = Sample.store ∧
    (updateMenu Env.node Sample.store "65a000000000000000000029"
        "65a000000000000000000001" [Sample.salad]).2.status = 404 :=
  have h := updateMenu_unknown_restaurant Env.node Sample.store
    "65a000000000000000000029" "65a000000000000000000001" [Sample.salad] (by decide)
  ⟨h.1, h.2.1.mpr
    ⟨⟨signup.newUser Env.node "alice" "a@x.com" "pw1" "saltsaltsaltsaltsaltsa"
        ⟨"65a000000000000000000001"⟩, by decide, by decide, rfl⟩,
     ⟨⟨"65a000000000000000000029"⟩, by decide⟩⟩⟩

theorem Restaurant.replace_of_find (i : ObjectId) (r r' : Restaurant) (l : List Restaurant)
    (hf : l.find? (fun x => x._id == i) = some r) (hid : r'._id = i) :
    ∃ pre post, l = pre ++ r :: post ∧ (∀ x ∈ pre, x._id ≠ i) ∧ r._id = i ∧
      Restaurant.replace r' l = pre ++ r' :: post := by
  induction l with
  | nil => simp at hf
  | cons x xs ih =>
    rw [List.find?_cons] at hf
    by_cases hx : x._id = i
    · simp only [hx, beq_self_eq_true, Option.some.injEq] at hf
      subst hf
      refine ⟨[], xs, rfl, by simp, hx, ?_⟩
      simp [Restaurant.replace, hx, hid]
    · have hb : (x._id == i) = false := by simpa using hx
      rw [hb] at hf
      obtain ⟨pre, post, hl, hpre, hr, hrep⟩ := ih hf
      refine ⟨x :: pre, post, by rw [hl]; rfl, ?_, hr, ?_⟩
      · intro y hy
        rcases List.mem_cons.mp hy with h1 | h1
        · rw [h1]; exact hx
        · exact hpre y h1
      · simp [Restaurant.replace, hid, hb, hrep]

theorem Restaurant.saveLoaded_ok (s s' : Store) (r : Restaurant)
    (h : Restaurant.saveLoaded s r = .ok s') :
    s' = { s with restaurants := Restaurant.replace r s.restaurants } := by
  unfold Restaurant.saveLoaded at h
  split_ifs at h
  exact (Except.ok.inj h).symm

theorem updateMenu_ok (env : Env) (s : Store) (restaurantId userId : String)
    (menu : List MenuEntry) (h : (updateMenu env s restaurantId userId menu).2.status = 200) :
    ∃ r entries, Restaurant.findById env s.restaurants restaurantId = .ok (some r) ∧
      castMenu menu = some entries ∧
      (updateMenu env s restaurantId userId menu).1 =
        { s with restaurants := Restaurant.replace { r with menu := entries } s.restaurants } := by
  cases hu : User.findById env s.users userId with
  | error e => simp [updateMenu, hu] at h
  | ok user =>
    cases ha : unauthorized user userId with
    | true => simp [updateMenu, hu, ha] at h
    | false =>
      cases hr : Restaurant.findById env s.restaurants restaurantId with
      | error e => simp [updateMenu, hu, ha, hr] at h
      | ok o =>
        cases o with
        | none => simp [updateMenu, hu, ha, hr] at h
        | some r =>
          cases hm : castMenu menu with
          | none => simp [updateMenu, hu, ha, hr, hm] at h
          | some entries =>
            refine ⟨r, entries, rfl, rfl, ?_⟩
            cases hs : Restaurant.saveLoaded s { r with menu := entries } with
            | error e => simp [updateMenu, hu, ha, hr, hm, hs] at h
            | ok s' =>
              simp only [updateMenu, hu, ha, hr, hm, hs]
              exact Restaurant.saveLoaded_ok _ _ _ hs

theorem updateMenu_stores_cast (env : Env) (s : Store) (restaurantId userId : String)
    (menu : List MenuEntry) (hok : (updateMenu env s restaurantId userId menu).2.status = 200) :
    ∃ (pre : List Restaurant) (r : Restaurant) (post : List Restaurant)
      (entries : List String),
      env.castObjectId restaurantId = some r._id ∧ castMenu menu = some entries ∧
      s.restaurants = pre ++ r :: post ∧ (∀ x ∈ pre, x._id ≠ r._id) ∧
      (updateMenu env s restaurantId userId menu).1.restaurants =
        pre ++ { r with menu := entries } :: post ∧
      (updateMenu env s restaurantId userId menu).1.users = s.users := by
  obtain ⟨r, entries, hr, hm, hs⟩ := updateMenu_ok env s restaurantId userId menu hok
  obtain ⟨hc, hf⟩ := Restaurant.findById_some env s.restaurants restaurantId r hr
  obtain ⟨pre, post, hl, hpre, _, hrep⟩ :=
    Restaurant.replace_of_find r._id r { r with menu := entries } s.restaurants hf rfl
  refine ⟨pre, r, post, entries, hc, hm, hl, hpre, ?_, ?_⟩
  · rw [hs]
    exact hrep
  · rw [hs]

/-- C8, on the code: alice replaces the menu of Roma by one item object, a
salad with an `_id`; the answer is 200 and the stored menu is the text of
the `_id` alone, not the request's item; the same item without an `_id` is
answered 500 and the menu is not replaced. -/
theorem updateMenu_stores_identifier_text :
    updateMenu Env.node Sample.store "65a000000000000000000021"
        "65a000000000000000000001" [Sample.salad] =
      ({ Sample.store with
          restaurants := [{ Sample.roma with menu := ["65a000000000000000000013"] }] },
       { status := 200, body := .message "Menu updated successfully" }) ∧
    ["65a000000000000000000013"].map MenuEntry.text ≠ [Sample.salad] ∧
    updateMenu Env.node Sample.store "65a000000000000000000021"
        "65a000000000000000000001" [.item none "salad" 5 "side" "salad.png"] =
      (Sample.store, { status := 500, body := .error "Failed to update the menu" }) := by
  decide

theorem deleteMenuItem_never_succeeds (env : Env) (s : Store)
    (restaurantId itemId userId : String) :
    (deleteMenuItem env s restaurantId itemId userId).1 = s ∧
    (deleteMenuItem env s restaurantId itemId userId).2.status ≠ 200 := by
  cases hu : User.findById env s.users userId with
  | error e => simp [deleteMenuItem, hu]
  | ok user =>
    cases ha : unauthorized user userId with
    | true => simp [deleteMenuItem, hu, ha]
    | false =>
      cases hr : Restaurant.findById env s.restaurants restaurantId with
      | error e => simp [deleteMenuItem, hu, ha, hr]
      | ok o =>
        cases o with
        | none => simp [deleteMenuItem, hu, ha, hr]
        | some r => simp [deleteMenuItem, hu, ha, hr, menu.id]

/-- C5, on the code: alice asks for the deletion of an entry that is on the
menu of Roma, then of one that is not; both requests are answered 500 and
the store is what it was. -/
theorem deleteMenuItem_throws :
    (∃ r ∈ Sample.store.restaurants,
      Env.node.castObjectId "65a000000000000000000021" = some r._id ∧
      "65a000000000000000000011" ∈ r.menu ∧ "65a000000000000000000013" ∉ r.menu) ∧
    deleteMenuItem Env.node Sample.store "65a000000000000000000021"
        "65a000000000000000000011" "65a000000000000000000001" =
      (Sample.store, { status := 500, body := .error "Failed to delete the menu item" }) ∧
    deleteMenuItem Env.node Sample.store "65a000000000000000000021"
        "65a000000000000000000013" "65a000000000000000000001" =
      (Sample.store, { status := 500, body := .error "Failed to delete the menu item" }) := by
  refine ⟨⟨Sample.roma, ?_, ?_, ?_, ?_⟩, ?_, ?_⟩ <;> decide

/-! ## Restaurant login -/

theorem Restaurant.findOne_first (l pre post : List Restaurant) (r : Restaurant)
    (q : Restaurant → Bool) (hl : l = pre ++ r :: post) (hpre : ∀ x ∈ pre, q x = false)
    (hr : q r = true) : Restaurant.findOne l q = some r := by
  subst hl
  unfold Restaurant.findOne
  have hnone : pre.find? q = none := by
    apply List.find?_eq_none.mpr
    intro x hx
    simp [hpre x hx]
  simp [List.find?_append, hnone, List.find?_cons, hr]

/-- C10, as the claim states it, fails: two restaurants signed up under the
name Roma; the second one's hash matches the password, and the login is
answered 401 because the first one's hash does not. -/
theorem restaurantLogin_shared_name_counterexample :
    (∃ r ∈ Sample.twins.restaurants, r.name = "Roma" ∧
      ∃ h, r.password = some h ∧ Env.node.bcryptCompare "second" h = true) ∧
    (restaurantLogin Env.node Sample.twins "Roma" "second" 0).2.status = 401 := by
  refine ⟨⟨{ _id := ⟨"65a000000000000000000032"⟩, name := "Roma",
             description := "More Italian food", location := "Milan", menu := [],
             password := some "$2b$10$saltsaltsaltsaltsaltsasecond" }, ?_, rfl, _, rfl, ?_⟩, ?_⟩ <;>
    decide

/-- C10, amended: restaurantLogin answers 401 without a token when no stored
restaurant has the name; otherwise the first stored restaurant with the name
decides: if the password matches its hash the answer is 200 with a token
whose payload is its identifier, signed with the restaurant key and expiring
3600 seconds after its issue, and if not the answer is 401 without a token. -/
theorem restaurantLogin_first_match (env : Env) (s : Store) (name password : String)
    (now : Nat) :
    ((∀ r ∈ s.restaurants, r.name ≠ name) →
      (restaurantLogin env s name password now).2.status = 401 ∧
      (restaurantLogin env s name password now).2.token = none) ∧
    (∀ (pre post : List Restaurant) (r : Restaurant) (hash : String),
      s.restaurants = pre ++ r :: post → (∀ x ∈ pre, x.name ≠ name) → r.name = name →
      r.password = some hash →
      (env.bcryptCompare password hash = true →
        (restaurantLogin env s name password now).2 =
          { status := 200,
            body := .messageToken "Restaurant login successful"
              { payload := .restaurantId r._id, secret := "your_restaurant_secret_key",
                iat := now, exp := now + 3600 } }) ∧
      (env.bcryptCompare password hash = false →
        (restaurantLogin env s name password now).2.status = 401 ∧
        (restaurantLogin env s name password now).2.token = none)) := by
  constructor
  · intro hnone
    have hf : Restaurant.findOne s.restaurants (fun r => r.name == name) = none := by
      apply List.find?_eq_none.mpr
      intro r hr
      simpa using hnone r hr
    simp [restaurantLogin, hf, Response.token]
  · intro pre post r hash hl hpre hr hpw
    have hf : Restaurant.findOne s.restaurants (fun r => r.name == name) = some r :=
      Restaurant.findOne_first s.restaurants pre post r _ hl
        (fun x hx => by simpa using hpre x hx) (by simpa using hr)
    constructor
    · intro hc
      simp [restaurantLogin, hf, hpw, hc, jwt.sign]
    · intro hc
      simp [restaurantLogin, hf, hpw, hc, Response.token]

/-- Witness of C10: with two restaurants named Roma, the first one's password
opens a session for the first one and the second one's password is refused;
an unknown name is refused. -/
theorem restaurantLogin_first_match_witness :
    (restaurantLogin Env.node Sample.twins "Roma" "first" 50).2 =
      { status := 200,
        body := .messageToken "Restaurant login successful"
          { payload := .restaurantId ⟨"65a000000000000000000031"⟩,
            secret := "your_restaurant_secret_key", iat := 50, exp := 50 + 3600 } } ∧
    (restaurantLogin Env.node Sample.twins "Roma" "second" 50).2.status = 401 ∧
    (restaurantLogin Env.node Sample.twins "Napoli" "first" 50).2.status = 401 :=
  ⟨((restaurantLogin_first_match Env.node Sample.twins "Roma" "first" 50).2 []
      [{ _id := ⟨"65a000000000000000000032"⟩, name := "Roma",
         description := "More Italian food", location := "Milan", menu := [],
         password := some "$2b$10$saltsaltsaltsaltsaltsasecond" }]
      { _id := ⟨"65a000000000000000000031"⟩, name := "Roma",
        description := "Italian food", location := "Rome", menu := [],
        password := some "$2b$10$saltsaltsaltsaltsaltsafirst" }
      "$2b$10$saltsaltsaltsaltsaltsafirst" (by decide) (by decide) rfl rfl).1 (by decide),
   (((restaurantLogin_first_match Env.node Sample.twins "Roma" "second" 50).2 []
      [{ _id := ⟨"65a000000000000000000032"⟩, name := "Roma",
         description := "More Italian food", location := "Milan", menu := [],
         password := some "$2b$10$saltsaltsaltsaltsaltsasecond" }]
      { _id := ⟨"65a000000000000000000031"⟩, name := "Roma",
        description := "Italian food", location := "Rome", menu := [],
        password := some "$2b$10$saltsaltsaltsaltsaltsafirst" }
      "$2b$10$saltsaltsaltsaltsaltsafirst" (by decide) (by decide) rfl rfl).2 (by decide)).1,
   ((restaurantLogin_first_match Env.node Sample.twins "Napoli" "first" 50).1
      (by decide)).1⟩

/-! ## Adding a restaurant, and the password of stored restaurants -/

theorem Restaurant.validate_password (r : Restaurant) (h : r.validate = true) :
    ∃ hash, r.password = some hash ∧ hash ≠ "" := by
  unfold Restaurant.validate at h
  cases hp : r.password with
  | none => simp [hp] at h
  | some hash =>
    refine ⟨hash, rfl, ?_⟩
    simp [hp] at h
    exact h.2

theorem Restaurant.mem_replace (r x : Restaurant) (l : List Restaurant)
    (h : x ∈ Restaurant.replace r l) : x ∈ l ∨ x = r := by
  induction l with
  | nil => simp [Restaurant.replace] at h
  | cons y ys ih =>
    unfold Restaurant.replace at h
    split_ifs at h
    · rcases List.mem_cons.mp h with h1 | h1
      · exact Or.inr h1
      · exact Or.inl (List.mem_cons_of_mem _ h1)
    · rcases List.mem_cons.mp h with h1 | h1
      · exact Or.inl (h1 ▸ List.mem_cons_self _ _)
      · rcases ih h1 with h2 | h2
        · exact Or.inl (List.mem_cons_of_mem _ h2)
        · exact Or.inr h2

theorem Restaurant.saveNew_mem (s s' : Store) (r x : Restaurant)
    (h : Restaurant.saveNew s r = .ok s') (hx : x ∈ s'.restaurants) :
    x ∈ s.restaurants ∨ x.validate = true := by
  unfold Restaurant.saveNew at h
  split_ifs at h with h1 h2
  have hs := (Except.ok.inj h).symm
  subst hs
  rcases List.mem_append.mp hx with h3 | h3
  · exact Or.inl h3
  · right
    rw [List.mem_singleton.mp h3]
    simpa using h1

theorem Restaurant.saveLoaded_mem (s s' : Store) (r x : Restaurant)
    (h : Restaurant.saveLoaded s r = .ok s') (hx : x ∈ s'.restaurants) :
    x ∈ s.restaurants ∨ x.validate = true := by
  unfold Restaurant.saveLoaded at h
  split_ifs at h with h1
  have hs := (Except.ok.inj h).symm
  subst hs
  rcases Restaurant.mem_replace r x s.restaurants hx with h3 | h3
  · exact Or.inl h3
  · right
    rw [h3]
    simpa using h1

theorem Restaurant.saveNew_without_password (s : Store) (r : Restaurant)
    (h : r.password = none) : Restaurant.saveNew s r = .error .validationError := by
  simp [Restaurant.saveNew, Restaurant.validate, h]

theorem addRestaurant_never_saves (env : Env) (s : Store)
    (userId name description location : String) (menu : List MenuEntry) (newId : ObjectId) :
    (addRestaurant env s userId name description location menu newId).1 = s ∧
    (addRestaurant env s userId name description location menu newId).2.status ≠ 200 := by
  cases hu : User.findById env s.users userId with
  | error e => simp [addRestaurant, hu]
  | ok o =>
    cases o with
    | none => simp [addRestaurant, hu]
    | some user => simp [addRestaurant, hu, User.superuser]

theorem step_restaurants (env : Env) (s : Store) (op : Op) (x : Restaurant)
    (hx : x ∈ (step env s op).1.restaurants) : x ∈ s.restaurants ∨ x.validate = true := by
  cases op with
  | signup username email password salt newId =>
    left
    simp only [step, signup] at hx
    split at hx
    · exact hx
    · split at hx
      · rename_i s' hs
        rw [User.save_ok _ _ _ hs] at hx
        exact hx
      · exact hx
  | login username password now =>
    left
    simp only [step, login] at hx
    split at hx
    · exact hx
    · split at hx <;> exact hx
  | restaurantSignup name password description location menu salt newId =>
    simp only [step, restaurantSignup] at hx
    split at hx
    · exact Or.inl hx
    · split at hx
      · rename_i s' hs
        exact Restaurant.saveNew_mem _ _ _ _ hs hx
      · exact Or.inl hx
  | restaurantLogin name password now =>
    left
    simp only [step, restaurantLogin] at hx
    split at hx
    · exact hx
    · split at hx
      · exact hx
      · split at hx <;> exact hx
  | addRestaurant userId name description location menu newId =>
    left
    simp only [step] at hx
    rw [(addRestaurant_never_saves env s userId name description location menu newId).1] at hx
    exact hx
  | updateMenu restaurantId userId menu =>
    simp only [step, updateMenu] at hx
    split at hx
    · exact Or.inl hx
    · split at hx
      · exact Or.inl hx
      · split at hx
        · exact Or.inl hx
        · exact Or.inl hx
        · split at hx
          · exact Or.inl hx
          · split at hx
            · rename_i s' hs
              exact Restaurant.saveLoaded_mem _ _ _ _ hs hx
            · exact Or.inl hx
  | deleteMenuItem restaurantId itemId userId =>
    left
    simp only [step] at hx
    rw [(deleteMenuItem_never_succeeds env s restaurantId itemId userId).1] at hx
    exact hx

theorem run_restaurants (env : Env) (ops : List Op) (s : Store)
    (hs : ∀ x ∈ s.restaurants, x.validate = true) :
    ∀ x ∈ (run env s ops).restaurants, x.validate = true := by
  induction ops generalizing s with
  | nil => exact hs
  | cons op ops ih =>
    apply ih
    intro x hx
    rcases step_restaurants env s op x hx with h | h
    · exact hs x h
    · exact h

/-- C7: in every store reached from the empty store by a sequence of the
seven operations, every stored restaurant has a password, a hash that is not
the empty string. -/
theorem every_restaurant_has_password (env : Env) (ops : List Op) (r : Restaurant)
    (hr : r ∈ (run env Store.empty ops).restaurants) :
    ∃ hash, r.password = some hash ∧ hash ≠ "" := by
  apply Restaurant.validate_password
  exact run_restaurants env ops Store.empty (by simp [Store.empty]) r hr

/-- Witness of C7: the restaurant stored after alice and Roma have signed up
and alice has replaced Roma's menu. -/
theorem every_restaurant_has_password_witness :
    { Sample.roma with menu := ["65a000000000000000000013"] } ∈
      (run Env.node Store.empty
        [.signup "alice" "a@x.com" "pw1" "saltsaltsaltsaltsaltsa"
            ⟨"65a000000000000000000001"⟩,
         .restaurantSignup "Roma" "rpw" "Italian food" "Rome" [Sample.pizza, Sample.pasta]
            "saltsaltsaltsaltsaltsa" ⟨"65a000000000000000000021"⟩,
         .updateMenu "65a000000000000000000021" "65a000000000000000000001"
            [Sample.salad]]).restaurants ∧
    ∃ hash, Sample.roma.password = some hash ∧ hash ≠ "" :=
  ⟨by decide,
   every_restaurant_has_password Env.node
     [.signup "alice" "a@x.com" "pw1" "saltsaltsaltsaltsaltsa" ⟨"65a000000000000000000001"⟩,
      .restaurantSignup "Roma" "rpw" "Italian food" "Rome" [Sample.pizza, Sample.pasta]
         "saltsaltsaltsaltsaltsa" ⟨"65a000000000000000000021"⟩,
      .updateMenu "65a000000000000000000021" "65a000000000000000000001" [Sample.salad]]
     { Sample.roma with menu := ["65a000000000000000000013"] }
     (by decide)⟩

/-- C6, on the code: the stored user root carries `superuser: true` and asks
for a restaurant to be added with a name, a description, a location and a
menu; the answer is 403 and the collection of restaurants is what it was. -/
theorem addRestaurant_superuser_forbidden :
    (∃ u ∈ Sample.adminStore.users,
      User.findById Env.node Sample.adminStore.users "65a000000000000000000002" =
        .ok (some u) ∧ u.storedSuperuser = true) ∧
    addRestaurant Env.node Sample.adminStore "65a000000000000000000002"
        "Roma" "Italian food" "Rome" [Sample.pizza, Sample.pasta]
        ⟨"65a000000000000000000041"⟩ =
      (Sample.adminStore, { status := 403, body := .error "Unauthorized access" }) := by
  refine ⟨⟨_, List.mem_singleton.mpr rfl, rfl, rfl⟩, ?_⟩
  decide

end Backend
